import Mathlib

/-!
Verification of the email-server request-admission pipeline
(`src/main.rs`): the sliding-window rate limiter, the API-key
authenticator, the message builder with config defaults, the error
response mapping, and the request handler that sequences them.

Time is modelled in whole seconds as `Nat`.  `SystemTime.duration_since`
followed by `unwrap_or(Duration::from_secs(0))` is exactly truncated
natural subtraction: when the recorded time is later than `now` the Rust
call yields `Err`, `unwrap_or` turns it into the zero duration, and
`now - t` in `Nat` is likewise `0` there.
-/

/-- Models `now.duration_since(time).unwrap_or(Duration::from_secs(0))`
from `RateLimit::is_allowed` (main.rs line 80): the elapsed seconds since
`t`, clamped at zero when `t` is in the future of `now`. -/
def duration_since_or_zero (now t : Nat) : Nat :=
  now - t

/-- The rate-limit table, `requests: HashMap<String, Vec<SystemTime>>`
(main.rs lines 64-66).  A missing key and an empty vector are
observationally identical here (`entry(..).or_insert(Vec::new())`), so the
map is modelled as a total function defaulting to `[]`. -/
structure RateLimit where
  requests : String → List Nat

/-- The empty table built by `RateLimit::new` (main.rs lines 69-73). -/
def RateLimit.new : RateLimit :=
  { requests := fun _ => [] }

/-- Model of `RateLimit::is_allowed` (main.rs lines 75-91), with the clock reading
`SystemTime::now()` passed in as `now`.  It retains in the log of `ip`
exactly the entries whose clamped age is under 60 seconds, then rejects
when 10 or more remain, and otherwise appends `now` and admits.  The
mutation done by `retain` persists in the table even on the reject path.
Returns the `bool` result paired with the updated table. -/
def RateLimit.is_allowed (rl : RateLimit) (ip : String) (now : Nat) : Bool × RateLimit :=
  let requests := rl.requests ip
  let requests := requests.filter (fun time => duration_since_or_zero now time < 60)
  if requests.length ≥ 10 then
    (false, { requests := fun s => if s = ip then requests else rl.requests s })
  else
    (true, { requests := fun s => if s = ip then requests ++ [now] else rl.requests s })

/-- The error taxonomy `EmailError` (main.rs lines 258-268).  The SMTP
variant carries the display text of the underlying transport error. -/
inductive EmailError where
  | smtpError (e : String)
  | rateLimit
  | invalidApiKey
  | missingApiKey
deriving DecidableEq, Repr

/-- The JSON body `ApiResponse` with fields `status` and `message`
(main.rs lines 251-255). -/
structure ApiResponse where
  status : String
  message : String
deriving DecidableEq, Repr

/-- Model of `impl IntoResponse for EmailError` (main.rs lines 95-117): the HTTP
status code paired with the JSON error body.  The format call
interpolating the smtp error display text into "Failed to send email: "
is the string concatenation below. -/
def EmailError.into_response : EmailError → Nat × ApiResponse
  | .smtpError e =>
      (500, { status := "error", message := "Failed to send email: " ++ e })
  | .rateLimit =>
      (429, { status := "error", message := "Rate limit exceeded" })
  | .invalidApiKey =>
      (401, { status := "error", message := "Invalid API key" })
  | .missingApiKey =>
      (401, { status := "error", message := "Missing API key" })

/-- Model of `validate_api_key` (main.rs lines 120-141).  The `X-API-Key` header
lookup is modelled as an `Option String`: `None` is an absent header.
(The code also maps a header value that is not valid visible ASCII to
`InvalidApiKey` via `to_str()`; such values are outside the `String`
model.) -/
def validate_api_key (request_api_key : Option String) (config_api_key : String) :
    Except EmailError Unit :=
  match request_api_key with
  | none => .error .missingApiKey
  | some k =>
      if k ≠ config_api_key then .error .invalidApiKey
      else .ok ()

/-- The request payload `EmailRequest` (main.rs lines 238-248); the three
optional fields default to the empty string under serde. -/
structure EmailRequest where
  «from» : String
  «to» : String
  sender_name : String
  subject : String
  body : String

/-- The message-relevant part of `EmailConfig` (main.rs lines 27-35). -/
structure EmailConfig where
  email_from : String
  email_to : String
  sender_name : String

/-- The strings assembled for `Message::builder()` before parsing. -/
structure BuiltEmail where
  from_addr : String
  «to» : String
  subject : String
  body : String
deriving DecidableEq, Repr

/-- The default-resolution and formatting steps of `send_email` (main.rs
lines 167-210): each of from, to and sender name falls back to the
configured default exactly when the request field is empty, the display
from address is the resolved sender name followed by the resolved from
address in angle brackets (the format call on line 198), and subject and
body are passed through verbatim. -/
def buildEmail (req : EmailRequest) (cfg : EmailConfig) : BuiltEmail :=
  let «from» := if req.«from».isEmpty then cfg.email_from else req.«from»
  let «to» := if req.«to».isEmpty then cfg.email_to else req.«to»
  let sender_name := if !req.sender_name.isEmpty then req.sender_name else cfg.sender_name
  let from_addr := sender_name ++ " <" ++ «from» ++ ">"
  { from_addr := from_addr, «to» := «to», subject := req.subject, body := req.body }

/-- Outcome of one call to the handler.  `panicked` marks the paths where
the Rust code calls `.unwrap()` on a failed address parse (main.rs lines
206-207) and the task dies instead of producing a response. -/
inductive SendOutcome where
  | ok (r : ApiResponse)
  | err (e : EmailError)
  | panicked
deriving DecidableEq, Repr

/-- The handler `send_email` (main.rs lines 144-228).  External
collaborators enter as parameters: `request_api_key` and `xff` are the
`X-API-Key` and `x-forwarded-for` headers, `now` is the clock read inside
`is_allowed`, `mailbox_ok` is the address parser of the lettre crate
(`str::parse::<Mailbox>` succeeding), and `smtp_result` is the outcome of
`state.smtp_transport.send(&email)` (`.error e` carries the display text
of the transport error).  Returns the outcome paired with the rate-limit
table after the call. -/
def send_email (rl : RateLimit) (request_api_key : Option String) (xff : Option String)
    (req : EmailRequest) (cfg : EmailConfig) (config_api_key : String) (now : Nat)
    (mailbox_ok : String → Bool) (smtp_result : Except String Unit) :
    SendOutcome × RateLimit :=
  match validate_api_key request_api_key config_api_key with
  | .error e => (.err e, rl)
  | .ok _ =>
    let ip := xff.getD "unknown"
    let res := rl.is_allowed ip now
    if !res.1 then (.err .rateLimit, res.2)
    else
      let email := buildEmail req cfg
      if mailbox_ok email.from_addr && mailbox_ok email.«to» then
        match smtp_result with
        | .ok _ =>
            (.ok { status := "success", message := "Email sent successfully" }, res.2)
        | .error e => (.err (.smtpError e), res.2)
      else
        (.panicked, res.2)

/-- Events on the rate-limit mutex and the transport, in program order,
for one execution of `send_email`. -/
inductive LockEvent where
  | acquire
  | transportSend
  | release
deriving DecidableEq, Repr

/-- The order of rate-limit-lock events and the transport send in
`send_email` (main.rs lines 144-228), one list per control path.  The
`MutexGuard` bound at line 161 is never dropped explicitly; by Rust
scoping it lives until the handler returns (or until the panic of an
`unwrap` unwinds through it), so on every path that acquires the lock
the release is the last event:
  - `auth_ok = false`: the `?` on line 150 returns before line 161, no
    lock activity;
  - `allowed = false`: the early return on line 163 drops the guard, no
    send happened;
  - `addresses_ok = false`: the `unwrap` on line 206 or 207 panics and
    unwinding drops the guard, no send happened;
  - otherwise: `state.smtp_transport.send(&email)` on line 215 runs,
    and the guard is dropped only when the function returns after it. -/
def send_email_lock_trace (auth_ok allowed addresses_ok : Bool) : List LockEvent :=
  if !auth_ok then []
  else if !allowed then [.acquire, .release]
  else if !addresses_ok then [.acquire, .release]
  else [.acquire, .transportSend, .release]

/-- Modelled from the spec: the pruning step as worded by the claim,
"removes from that identity log every timestamp older than T minus 60
seconds" — an entry is removed exactly when its timestamp is strictly
below `now - 60` (clamped at zero).  Used only to compare the claim
wording with `RateLimit.is_allowed`. -/
def claim_prune (now : Nat) (log : List Nat) : List Nat :=
  log.filter (fun t => !decide (t < now - 60))

/-! ### Helper lemmas -/

/-- A string is empty in the Rust sense exactly when it is the empty
string literal, also for the negated boolean test. -/
theorem string_isEmpty_false_iff (s : String) : s.isEmpty = false ↔ ¬ s = "" := by
  rw [← Bool.not_eq_true, not_iff_not]
  exact String.isEmpty_iff s

/-- Filtering past an element that fails the predicate strictly shortens
the list. -/
theorem length_filter_lt_of_mem {p : Nat → Bool} {l : List Nat} {x : Nat}
    (hx : x ∈ l) (hp : p x = false) : (l.filter p).length < l.length :=
  List.length_filter_lt_length_iff_exists.mpr ⟨x, hx, by simp [hp]⟩

/-! ### Claims -/

/-- Claim C5: with no credential the validator yields the missing-key
error, with a credential different from the configured secret it yields
the invalid-key error, and with the exact secret it yields Ok; equality
of the strings is the sole criterion. -/
theorem validate_api_key_correct (secret c : String) :
    validate_api_key none secret = .error .missingApiKey ∧
    (c ≠ secret → validate_api_key (some c) secret = .error .invalidApiKey) ∧
    validate_api_key (some secret) secret = .ok () := by
  refine ⟨rfl, fun h => ?_, ?_⟩
  · simp [validate_api_key, h]
  · simp [validate_api_key]

/-- Witness for C5 at a concrete mismatched credential. -/
theorem validate_api_key_correct_witness :
    validate_api_key (some "wrong") "secret" = .error .invalidApiKey :=
  (validate_api_key_correct "secret" "wrong").2.1 (by decide)

/-- Claim C6: every error maps to one status-and-JSON-body pair whose
body has status "error"; missing and invalid credentials map to 401,
rate-limit rejection to 429, and a transport failure to 500 with the
transport error text appearing in the message. -/
theorem into_response_mapping (e : String) :
    (∀ err : EmailError, (EmailError.into_response err).2.status = "error") ∧
    EmailError.into_response .missingApiKey = (401, ⟨"error", "Missing API key"⟩) ∧
    EmailError.into_response .invalidApiKey = (401, ⟨"error", "Invalid API key"⟩) ∧
    EmailError.into_response .rateLimit = (429, ⟨"error", "Rate limit exceeded"⟩) ∧
    (EmailError.into_response (.smtpError e)).1 = 500 ∧
    (∃ p, (EmailError.into_response (.smtpError e)).2.message = p ++ e) := by
  refine ⟨fun err => ?_, rfl, rfl, rfl, rfl, ⟨"Failed to send email: ", rfl⟩⟩
  cases err <;> rfl

/-- Claim C7: the built message resolves from, to and sender name to the
request value exactly when that field is non-empty and to the configured
default otherwise, independently per field; the display from address is
the resolved sender name with the resolved from address in angle
brackets; subject and body are copied verbatim. -/
theorem buildEmail_resolution (req : EmailRequest) (cfg : EmailConfig) :
    (buildEmail req cfg).subject = req.subject ∧
    (buildEmail req cfg).body = req.body ∧
    (buildEmail req cfg).«to» = (if req.«to» = "" then cfg.email_to else req.«to») ∧
    (buildEmail req cfg).from_addr =
      (if req.sender_name = "" then cfg.sender_name else req.sender_name) ++ " <" ++
        (if req.«from» = "" then cfg.email_from else req.«from») ++ ">" := by
  refine ⟨rfl, rfl, ?_, ?_⟩
  · by_cases h : req.«to» = "" <;> simp [buildEmail, h, String.isEmpty_iff]
  · by_cases h1 : req.sender_name = "" <;> by_cases h2 : req.«from» = "" <;>
      simp [buildEmail, h1, h2, String.isEmpty_iff, string_isEmpty_false_iff]

/-- Claim C9 (amended context of C1): when a recorded timestamp lies in
the future of the captured time (clock moved backward), the age
computation clamps to zero instead of erroring, so the retain test keeps
the entry in the log after the call. -/
theorem clock_backward_retained (rl : RateLimit) (ip : String) (now t : Nat)
    (hfut : now < t) (hmem : t ∈ rl.requests ip) :
    duration_since_or_zero now t = 0 ∧
    t ∈ (rl.is_allowed ip now).2.requests ip := by
  have hz : duration_since_or_zero now t = 0 := Nat.sub_eq_zero_of_le (Nat.le_of_lt hfut)
  refine ⟨hz, ?_⟩
  have hmem' :
      t ∈ (rl.requests ip).filter (fun time => decide (duration_since_or_zero now time < 60)) :=
    List.mem_filter.mpr ⟨hmem, by simp [hz]⟩
  simp only [RateLimit.is_allowed]
  split
  · simpa using hmem'
  · simpa using Or.inl hmem'

/-- Witness for C9: an entry recorded at time 5 survives a check at time
0. -/
theorem clock_backward_retained_witness :
    duration_since_or_zero 0 5 = 0 ∧
    5 ∈ ((RateLimit.mk fun _ => [5]).is_allowed "a" 0).2.requests "a" :=
  clock_backward_retained (RateLimit.mk fun _ => [5]) "a" 0 5 (by decide) (by decide)

/-- Claim C1, amended at the pruning boundary: one call of the check
keeps in the log of `ip` exactly the timestamps `t` with `now < t + 60`
(so an entry aged exactly 60 seconds is removed, not only those strictly
older than `now - 60`); when at least 10 remain it returns false and the
stored log is the pruned log with `now` not recorded, otherwise it
returns true and the stored log is the pruned log with `now` appended;
logs of every other identity are untouched. -/
theorem is_allowed_spec (rl : RateLimit) (ip : String) (now : Nat) :
    (∀ j, j ≠ ip → (rl.is_allowed ip now).2.requests j = rl.requests j) ∧
    (let pruned := (rl.requests ip).filter (fun t => decide (now < t + 60))
     if 10 ≤ pruned.length then
       (rl.is_allowed ip now).1 = false ∧ (rl.is_allowed ip now).2.requests ip = pruned
     else
       (rl.is_allowed ip now).1 = true ∧
         (rl.is_allowed ip now).2.requests ip = pruned ++ [now]) := by
  have hf : (rl.requests ip).filter (fun time => decide (duration_since_or_zero now time < 60))
      = (rl.requests ip).filter (fun t => decide (now < t + 60)) :=
    List.filter_congr (fun a _ => by
      simp only [duration_since_or_zero, decide_eq_decide]
      omega)
  constructor
  · intro j hj
    simp only [RateLimit.is_allowed]
    split <;> simp [hj]
  · by_cases h : 10 ≤ ((rl.requests ip).filter (fun t => decide (now < t + 60))).length
    · simp [RateLimit.is_allowed, hf, h]
    · simp [RateLimit.is_allowed, hf, h]

/-- Witness for the amended C1: a check never touches the log of a
different identity. -/
theorem is_allowed_spec_witness :
    (RateLimit.new.is_allowed "a" 5).2.requests "b" = [] :=
  (is_allowed_spec RateLimit.new "a" 5).1 "b" (by decide)

/-- Counterexample to C1 as stated: at time 60 with the single recorded
timestamp 0, the timestamp is exactly `now - 60` and hence not older
than it, so the claimed prune keeps it and the claim predicts the final
log to contain 0 followed by 60; the code removes it (its clamped age 60
fails the strict bound) and stores only 60. -/
theorem is_allowed_prune_boundary_cex :
    claim_prune 60 [0] = [0] ∧
    ((RateLimit.mk fun _ => [0]).is_allowed "a" 60).2.requests "a" = [60] ∧
    ((RateLimit.mk fun _ => [0]).is_allowed "a" 60).2.requests "a" ≠
      claim_prune 60 [0] ++ [60] := by
  decide

/-- Claim C4: with 10 recorded admissions for identity I inside one
60-second window, an 11th check inside that window rejects; and a check
strictly after the oldest of the 10 has aged out of the trailing window
admits. -/
theorem sliding_window_admission (rl : RateLimit) (I : String) (a T Tl t0 : Nat)
    (hlen : (rl.requests I).length = 10) :
    ((∀ t ∈ rl.requests I, a ≤ t ∧ t < a + 60) → a ≤ T → T < a + 60 →
        (rl.is_allowed I T).1 = false) ∧
    (t0 ∈ rl.requests I → (∀ t ∈ rl.requests I, t0 ≤ t) → t0 + 60 < Tl →
        (rl.is_allowed I Tl).1 = true) := by
  constructor
  · intro hall haT hTa
    have hkeep : ∀ t ∈ rl.requests I,
        decide (duration_since_or_zero T t < 60) = true := by
      intro t ht
      have := hall t ht
      simp only [duration_since_or_zero, decide_eq_true_eq]
      omega
    simp only [RateLimit.is_allowed]
    rw [List.filter_eq_self.mpr hkeep]
    simp [hlen]
  · intro hmem hmin hT
    have hdrop : decide (duration_since_or_zero Tl t0 < 60) = false := by
      simp only [duration_since_or_zero, decide_eq_false_iff_not]
      omega
    have hlt := length_filter_lt_of_mem (p := fun time => decide (duration_since_or_zero Tl time < 60)) hmem hdrop
    have hnot : ¬ (10 ≤
        ((rl.requests I).filter (fun time => decide (duration_since_or_zero Tl time < 60))).length) := by
      omega
    simp only [RateLimit.is_allowed]
    simp [hnot]

/-- Witness for C4 with ten admissions at seconds 0 through 9: an 11th
check at second 59 rejects, and a check at second 61 admits. -/
theorem sliding_window_admission_witness :
    ((RateLimit.mk fun _ => [0, 1, 2, 3, 4, 5, 6, 7, 8, 9]).is_allowed "c" 59).1 = false ∧
    ((RateLimit.mk fun _ => [0, 1, 2, 3, 4, 5, 6, 7, 8, 9]).is_allowed "c" 61).1 = true :=
  ⟨(sliding_window_admission (RateLimit.mk fun _ => [0, 1, 2, 3, 4, 5, 6, 7, 8, 9])
      "c" 0 59 61 0 (by decide)).1 (by decide) (by decide) (by decide),
   (sliding_window_admission (RateLimit.mk fun _ => [0, 1, 2, 3, 4, 5, 6, 7, 8, 9])
      "c" 0 59 61 0 (by decide)).2 (by decide) (by decide) (by decide)⟩

/-- Claim C8: when credential validation fails, the handler returns that
error and the rate-limit table is exactly the one it started with — no
timestamp is recorded for any identity. -/
theorem auth_failure_preserves_rate_state (rl : RateLimit) (key xff : Option String)
    (req : EmailRequest) (cfg : EmailConfig) (secret : String) (now : Nat)
    (mb : String → Bool) (sr : Except String Unit) (e : EmailError)
    (h : validate_api_key key secret = .error e) :
    send_email rl key xff req cfg secret now mb sr = (.err e, rl) := by
  simp [send_email, h]

/-- Witness for C8: a request with no credential leaves the fresh table
untouched. -/
theorem auth_failure_preserves_rate_state_witness :
    send_email RateLimit.new none none ⟨"", "", "", "s", "b"⟩ ⟨"a@b", "c@d", "S"⟩ "k" 0
      (fun _ => true) (.ok ()) = (.err .missingApiKey, RateLimit.new) :=
  auth_failure_preserves_rate_state RateLimit.new none none ⟨"", "", "", "s", "b"⟩
    ⟨"a@b", "c@d", "S"⟩ "k" 0 (fun _ => true) (.ok ()) .missingApiKey rfl

/-- Claim C10: the empty table satisfies the 10-entry bound, and one call
of the check preserves it for every identity, so every reachable log
holds at most 10 timestamps. -/
theorem rate_log_bounded (rl : RateLimit) (ip : String) (now : Nat) :
    (∀ id, (RateLimit.new.requests id).length ≤ 10) ∧
    ((∀ id, (rl.requests id).length ≤ 10) →
      ∀ id, ((rl.is_allowed ip now).2.requests id).length ≤ 10) := by
  constructor
  · intro id
    simp [RateLimit.new]
  · intro h id
    simp only [RateLimit.is_allowed]
    split
    · by_cases hid : id = ip
      · subst hid
        simpa using le_trans (List.length_filter_le _ _) (h id)
      · simpa [hid] using h id
    · rename_i hc
      by_cases hid : id = ip
      · subst hid
        simp only [if_pos rfl]
        simp
        omega
      · simpa [hid] using h id

/-- Witness for C10 after one admission on the fresh table. -/
theorem rate_log_bounded_witness :
    ((RateLimit.new.is_allowed "a" 0).2.requests "a").length ≤ 10 :=
  (rate_log_bounded RateLimit.new "a" 0).2 (fun _ => by simp [RateLimit.new]) "a"

/-- Claim C2 fails on the code: with a malformed to address (here one
with no at-sign, rejected by the stand-in address parser) an
authenticated, rate-admitted request makes the handler panic via the
`unwrap` on the failed parse — the outcome is a dead task, not a
well-defined AddressFormatError mapped to a client error response.  No
such error variant exists in `EmailError`. -/
theorem malformed_address_panics :
    (send_email RateLimit.new (some "k") none
        ⟨"", "not an address", "", "hi", "there"⟩
        ⟨"a@b.c", "d@e.f", "S"⟩ "k" 0
        (fun s => s.data.any (fun c => c == '@')) (.ok ())).1 = .panicked := by
  decide

/-- Claim C3 fails on the code: on the path that reaches the transport
send, the send event precedes the release of the rate-limit lock in the
lock trace, because the mutex guard is dropped only when the handler
returns — the lock is held while the transport send runs. -/
theorem lock_held_during_send :
    send_email_lock_trace true true true = [.acquire, .transportSend, .release] ∧
    (send_email_lock_trace true true true).indexOf LockEvent.transportSend <
      (send_email_lock_trace true true true).indexOf LockEvent.release := by
  decide
